import Mathlib

/-!
Shallow embedding of the wallet / withdrawal core of the Prediction-market
repository (Go backend, packages `wallethandlers`, `adminhandlers`, `dfns`,
`models`).  Pure helpers are translated directly; the GORM-backed handlers are
translated as explicit state-passing functions on a `DBState` record listing
the relevant tables.  A Go `tx.Rollback()` path is modelled by returning the
pre-transaction state unchanged; `db.Save` by primary-key replacement in the
corresponding list.  Machine integers (`int64`) are modelled as `Int`; all
amounts appearing in this development are far inside the `int64` range, and a
comment marks the one place (`big.Int.Int64`) where the Go code would wrap.
-/

namespace PredictionMarket

/-! ### Constants — src/backend/models/transaction.go and part_002 -/

def TxTypeDeposit : String := "DEPOSIT"

def TxTypeWithdrawal : String := "WITHDRAWAL"

def TxStatusPending : String := "PENDING"

def TxStatusApproved : String := "APPROVED"

def TxStatusCompleted : String := "COMPLETED"

def TxStatusFailed : String := "FAILED"

def TxStatusRejected : String := "REJECTED"

def MinWithdrawalAmount : Int := 10

def MaxWithdrawalAmount : Int := 10000

def DailyWithdrawalLimit : Int := 50000

/-! ### Conversion and validation utilities — src/backend/services/dfns/utils.go -/

/-- Hex digit as accepted by the Go regex `[a-fA-F0-9]`. -/
def isHexChar (c : Char) : Bool :=
  c.isDigit || decide ('a' ≤ c ∧ c ≤ 'f') || decide ('A' ≤ c ∧ c ≤ 'F')

/-- Alphanumeric as accepted by the Go regex `[a-zA-Z0-9]`. -/
def isAlnumChar (c : Char) : Bool :=
  c.isDigit || decide ('a' ≤ c ∧ c ≤ 'z') || decide ('A' ≤ c ∧ c ≤ 'Z')

/-- Model of `IsValidEVMAddress`: the regex `^0x[a-fA-F0-9]\x7b40\x7d$`. -/
def IsValidEVMAddress (address : String) : Bool :=
  match address.toList with
  | '0' :: 'x' :: rest => rest.length == 40 && rest.all isHexChar
  | _ => false

/-- Model of `IsValidTronAddress`: the regex `^T[a-zA-Z0-9]\x7b33\x7d$`. -/
def IsValidTronAddress (address : String) : Bool :=
  match address.toList with
  | 'T' :: rest => rest.length == 33 && rest.all isAlnumChar
  | _ => false

/-- Model of `strings.HasPrefix` over the character list. -/
def startsWithStr (s p : String) : Bool :=
  s.toList.take p.toList.length == p.toList

/-- Model of `IsValidAddress`: chain-dependent dispatch (`strings.HasPrefix(chainName, "tron")`). -/
def IsValidAddress (address chainName : String) : Bool :=
  if startsWithStr chainName "tron" then IsValidTronAddress address
  else IsValidEVMAddress address

/-- Membership in `ValidChains` (`IsValidChainName`). -/
def IsValidChainName (chain : String) : Bool :=
  chain == "ethereum" || chain == "ethereum-sepolia" || chain == "tron" || chain == "tron-nile"

/-- Membership in `ValidTokens` (`IsValidTokenSymbol`). -/
def IsValidTokenSymbol (symbol : String) : Bool :=
  symbol == "USDC" || symbol == "USDT"

/-- Digits of a base-10 numeral, as `big.Int.SetString(s, 10)` accepts after the
optional sign: nonempty, all ASCII digits. -/
def parseDigits (l : List Char) : Option Nat :=
  if l.isEmpty then none
  else if l.all Char.isDigit then
    some (l.foldl (fun acc c => acc * 10 + (c.toNat - 48)) 0)
  else none

/-- Model of `big.Int.SetString(s, 10)`: optional sign followed by digits. -/
def parseBigInt (s : String) : Option Int :=
  match s.toList with
  | '-' :: rest => (parseDigits rest).map (fun n => -(n : Int))
  | '+' :: rest => (parseDigits rest).map (fun n => (n : Int))
  | l => (parseDigits l).map (fun n => (n : Int))

/-- Model of `ConvertToCredits`: arbitrary-precision division of the decimal string by
`10^decimals`.  `big.Int.Div` is Euclidean division (`Int.ediv`);
`big.Int.Exp` with a negative exponent yields `1`, matched by `Int.toNat`
sending negatives to `0`.  The Go code ignores the `SetString` error (the
value is then unspecified; modelled as `0`, and no claim depends on that
branch), and its final `credits.Int64()` is exact precisely when the quotient
fits in `int64`, which holds for every amount in this development. -/
def ConvertToCredits (rawAmount : String) (decimals : Int) : Int :=
  let amount := (parseBigInt rawAmount).getD 0
  let divisor : Int := 10 ^ decimals.toNat
  Int.ediv amount divisor

/-- Model of `CreditsToTokenAmount`: exact multiplication by `10^decimals`, rendered in
decimal as by `big.Int.String`. -/
def CreditsToTokenAmount (credits : Int) (decimals : Int) : String :=
  toString (credits * 10 ^ decimals.toNat)

/-- Model of `GetTokenDecimals`: 6 for USDC/USDT, default 18 for anything else. -/
def GetTokenDecimals (symbol : String) : Int :=
  if symbol == "USDC" || symbol == "USDT" then 6 else 18

/-- Modelled from the spec (§4.1): a decimals lookup that fails on symbols
outside the fixed table instead of returning a default — stated only to be
compared against the source's `GetTokenDecimals`. -/
def GetTokenDecimalsSpec (symbol : String) : Option Int :=
  if symbol == "USDC" || symbol == "USDT" then some 6 else none

/-- Decidable equality for handler results. -/
instance {ε α : Type} [DecidableEq ε] [DecidableEq α] : DecidableEq (Except ε α) := fun a b =>
  match a, b with
  | Except.error e1, Except.error e2 =>
    if h : e1 = e2 then isTrue (by rw [h])
    else isFalse (fun hc => h (Except.error.inj hc))
  | Except.error _, Except.ok _ => isFalse (fun hc => Except.noConfusion hc)
  | Except.ok _, Except.error _ => isFalse (fun hc => Except.noConfusion hc)
  | Except.ok a1, Except.ok a2 =>
    if h : a1 = a2 then isTrue (by rw [h])
    else isFalse (fun hc => h (Except.ok.inj hc))

/-! ### Data model — src/backend/models -/

structure User where
  id : Int
  username : String
  accountBalance : Int
deriving Repr, DecidableEq

/-- Model of `models.WithdrawalRequest`.  The Go field `Type` collides with a Lean
keyword nowhere here; `TransactionID` is kept as `transactionID`. -/
structure WithdrawalRequest where
  id : Nat
  userID : Int
  chainID : Int
  chainName : String
  tokenSymbol : String
  amount : Int
  toAddress : String
  status : String
  transactionID : Option Nat
  errorMessage : String
  adminID : Option Int
  adminNote : String
  createdAt : Nat
  processedAt : Option Nat
deriving Repr, DecidableEq

/-- Model of `models.CryptoTransaction` (fields the core reads or writes).  The Go
field `Type` is rendered `txType` (keyword). -/
structure CryptoTransaction where
  id : Nat
  userID : Int
  walletID : Option Nat
  txType : String
  status : String
  chainID : Int
  chainName : String
  tokenSymbol : String
  tokenAddress : String
  amount : String
  amountCredits : Int
  txHash : String
  fromAddress : String
  toAddress : String
  dfnsTxID : String
  errorMessage : String
  webhookData : String
  createdAt : Nat
  processedAt : Option Nat
deriving Repr, DecidableEq

structure Wallet where
  id : Nat
  userID : Int
  dfnsWalletID : String
  chainID : Int
  chainName : String
  address : String
  isActive : Bool
deriving Repr, DecidableEq

structure SupportedChain where
  chainID : Int
  name : String
  usdcAddress : String
  usdtAddress : String
deriving Repr, DecidableEq

/-- The database tables the core touches, plus a primary-key counter. -/
structure DBState where
  users : List User
  withdrawalRequests : List WithdrawalRequest
  cryptoTransactions : List CryptoTransaction
  wallets : List Wallet
  chains : List SupportedChain
  nextID : Nat
deriving Repr, DecidableEq

/-- Model of `models.ChainInfo` (src/backend/models/wallet.go): chain name → id/network. -/
def ChainInfo (chainName : String) : Option (Int × String) :=
  if chainName == "ethereum" then some (1, "EthereumMainnet")
  else if chainName == "polygon" then some (137, "Polygon")
  else if chainName == "base" then some (8453, "Base")
  else if chainName == "arbitrum" then some (42161, "ArbitrumOne")
  else none

/-! ### GORM primitives: `First` as `find?`, `Save` as replace-by-primary-key -/

def findUser (st : DBState) (uid : Int) : Option User :=
  st.users.find? (fun u => u.id == uid)

def saveUser (st : DBState) (u : User) : DBState :=
  { st with users := st.users.map (fun x => if x.id == u.id then u else x) }

def balanceOf (st : DBState) (uid : Int) : Int :=
  ((findUser st uid).map User.accountBalance).getD 0

def findWithdrawalRequest (st : DBState) (wid : Nat) : Option WithdrawalRequest :=
  st.withdrawalRequests.find? (fun r => r.id == wid)

def saveWithdrawalRequest (st : DBState) (r : WithdrawalRequest) : DBState :=
  { st with withdrawalRequests :=
      st.withdrawalRequests.map (fun x => if x.id == r.id then r else x) }

def findActiveWallet (st : DBState) (uid chainID : Int) : Option Wallet :=
  st.wallets.find? (fun w => w.userID == uid && w.chainID == chainID && w.isActive)

def findWalletByDfnsWalletID (st : DBState) (dfnsID : String) : Option Wallet :=
  st.wallets.find? (fun w => w.dfnsWalletID == dfnsID)

def findChainByChainID (st : DBState) (chainID : Int) : Option SupportedChain :=
  st.chains.find? (fun c => c.chainID == chainID)

def findTxByDfnsID (st : DBState) (dfnsID : String) : Option CryptoTransaction :=
  st.cryptoTransactions.find? (fun t => t.dfnsTxID == dfnsID)

def saveTx (st : DBState) (t : CryptoTransaction) : DBState :=
  { st with cryptoTransactions :=
      st.cryptoTransactions.map (fun x => if x.id == t.id then t else x) }

def txHashExists (st : DBState) (h : String) : Bool :=
  st.cryptoTransactions.any (fun t => t.txHash == h)

def findWithdrawalByTransactionID (st : DBState) (txID : Nat) : Option WithdrawalRequest :=
  st.withdrawalRequests.find? (fun r => r.transactionID == some txID)

/-! ### Withdrawal request state predicates — src/backend/models/transaction.go -/

def CanBeApproved (wr : WithdrawalRequest) : Bool :=
  wr.status == TxStatusPending

def CanBeRejected (wr : WithdrawalRequest) : Bool :=
  wr.status == TxStatusPending

/-! ### Daily limit guard — part_002 `checkDailyWithdrawalLimit` -/

/-- Go `time.Now().Truncate(24 * time.Hour)`: the zero time is midnight UTC and
its distance to the Unix epoch is an exact multiple of 86400 s, so truncation
is flooring Unix seconds to the start of the current UTC day. -/
def startOfDayUTC (now : Nat) : Nat := now - now % 86400

/-- The daily-usage query: `SUM(amount)` over the user's requests with
`created_at >= today AND status != REJECTED`. -/
def dailyWithdrawalTotal (st : DBState) (userID : Int) (since : Nat) : Int :=
  (st.withdrawalRequests.filter
      (fun r => r.userID == userID && decide (since ≤ r.createdAt)
        && r.status != TxStatusRejected)).foldl
    (fun acc r => acc + r.amount) 0

/-- Model of `checkDailyWithdrawalLimit`: `true` iff the request is allowed, i.e. the Go
function returns `nil` (it errors exactly when `dailyTotal+amount > limit`). -/
def checkDailyWithdrawalLimit (st : DBState) (userID : Int) (now : Nat) (amount : Int) : Bool :=
  let today := startOfDayUTC now
  let dailyTotal := dailyWithdrawalTotal st userID today
  decide (dailyTotal + amount ≤ DailyWithdrawalLimit)

/-! ### InitiateWithdrawalHandler — part_002 (package wallethandlers) -/

structure WithdrawalRequestBody where
  chainName : String
  tokenSymbol : String
  amount : Int
  toAddress : String
deriving Repr, DecidableEq

inductive InitiateError
  | userNotFound
  | invalidChain
  | invalidToken
  | invalidAddress
  | belowMinimum
  | aboveMaximum
  | insufficientBalance
  | dailyLimitExceeded
  | chainConfigNotFound
deriving Repr, DecidableEq

/-- Model of `InitiateWithdrawalHandler`.  The authenticated user is the middleware's
database row, modelled as a lookup by id; each Go early `return` (and
`tx.Rollback()`) yields the untouched input state.  On success the balance
debit and the PENDING request are committed together. -/
def InitiateWithdrawalHandler (st : DBState) (userID : Int) (now : Nat)
    (req : WithdrawalRequestBody) : DBState × Except InitiateError WithdrawalRequest :=
  match findUser st userID with
  | none => (st, .error .userNotFound)
  | some user =>
    if !IsValidChainName req.chainName then (st, .error .invalidChain)
    else if !IsValidTokenSymbol req.tokenSymbol then (st, .error .invalidToken)
    else if !IsValidEVMAddress req.toAddress then (st, .error .invalidAddress)
    else if req.amount < MinWithdrawalAmount then (st, .error .belowMinimum)
    else if req.amount > MaxWithdrawalAmount then (st, .error .aboveMaximum)
    else if user.accountBalance < req.amount then (st, .error .insufficientBalance)
    else if !checkDailyWithdrawalLimit st userID now req.amount then
      (st, .error .dailyLimitExceeded)
    else match ChainInfo req.chainName with
      | none => (st, .error .chainConfigNotFound)
      | some chainInfo =>
        let debited : User := { user with accountBalance := user.accountBalance - req.amount }
        let st1 := saveUser st debited
        let wr : WithdrawalRequest :=
          { id := st.nextID, userID := userID, chainID := chainInfo.1,
            chainName := req.chainName, tokenSymbol := req.tokenSymbol,
            amount := req.amount, toAddress := req.toAddress,
            status := TxStatusPending, transactionID := none, errorMessage := "",
            adminID := none, adminNote := "", createdAt := now, processedAt := none }
        ({ st1 with withdrawalRequests := st1.withdrawalRequests ++ [wr],
                    nextID := st.nextID + 1 }, .ok wr)

/-! ### ApproveWithdrawalHandler — part_002 (package adminhandlers) -/

inductive ApproveError
  | requestNotFound
  | invalidState
  | walletNotFound
  | chainConfigNotFound
  | unsupportedToken
  | tokenNotAvailable
  | transferFailed
deriving Repr, DecidableEq

/-- The `switch withdrawalReq.TokenSymbol` selecting the contract address. -/
def tokenContractFor (tokenSymbol : String) (chain : SupportedChain) : Option String :=
  if tokenSymbol == "USDC" then some chain.usdcAddress
  else if tokenSymbol == "USDT" then some chain.usdtAddress
  else none

/-- Model of `ApproveWithdrawalHandler`.  The DFNS `InitiateTransfer` call is an
external collaborator, modelled by its outcome `transferOutcome` (`some id` =
the returned transfer id, `none` = the call failed).  On success a
`CryptoTransaction` is created APPROVED and the request is updated; every
failure path returns the state untouched, as the Go handler returns before any
write. -/
def ApproveWithdrawalHandler (st : DBState) (adminID : Int) (withdrawalID : Nat)
    (note : String) (now : Nat) (transferOutcome : Option String) :
    DBState × Except ApproveError (Nat × String) :=
  match findWithdrawalRequest st withdrawalID with
  | none => (st, .error .requestNotFound)
  | some wreq =>
    if !CanBeApproved wreq then (st, .error .invalidState)
    else match findActiveWallet st wreq.userID wreq.chainID with
    | none => (st, .error .walletNotFound)
    | some wallet =>
      match findChainByChainID st wreq.chainID with
      | none => (st, .error .chainConfigNotFound)
      | some chain =>
        match tokenContractFor wreq.tokenSymbol chain with
        | none => (st, .error .unsupportedToken)
        | some tokenContract =>
          if tokenContract == "" then (st, .error .tokenNotAvailable)
          else
            let decimals := GetTokenDecimals wreq.tokenSymbol
            let tokenAmount := CreditsToTokenAmount wreq.amount decimals
            match transferOutcome with
            | none => (st, .error .transferFailed)
            | some dfnsTransferID =>
              let cryptoTx : CryptoTransaction :=
                { id := st.nextID, userID := wreq.userID, walletID := some wallet.id,
                  txType := TxTypeWithdrawal, status := TxStatusApproved,
                  chainID := wreq.chainID, chainName := wreq.chainName,
                  tokenSymbol := wreq.tokenSymbol, tokenAddress := tokenContract,
                  amount := tokenAmount, amountCredits := wreq.amount,
                  txHash := "", fromAddress := "", toAddress := wreq.toAddress,
                  dfnsTxID := dfnsTransferID, errorMessage := "", webhookData := "",
                  createdAt := now, processedAt := none }
              let st1 := { st with
                cryptoTransactions := st.cryptoTransactions ++ [cryptoTx],
                nextID := st.nextID + 1 }
              let wreq' := { wreq with
                status := TxStatusApproved,
                transactionID := some cryptoTx.id,
                adminID := some adminID, adminNote := note,
                processedAt := some now }
              (saveWithdrawalRequest st1 wreq', .ok (cryptoTx.id, dfnsTransferID))

/-! ### RejectWithdrawalHandler — part_002 (package adminhandlers) -/

inductive RejectError
  | reasonRequired
  | requestNotFound
  | invalidState
  | userNotFound
deriving Repr, DecidableEq

/-- Model of `RejectWithdrawalHandler`: the empty-reason check precedes the lookup;
refund and status update are one transaction; the result value is the
`refundedAmount` of the JSON response. -/
def RejectWithdrawalHandler (st : DBState) (adminID : Int) (withdrawalID : Nat)
    (reason : String) (now : Nat) : DBState × Except RejectError Int :=
  if reason == "" then (st, .error .reasonRequired)
  else match findWithdrawalRequest st withdrawalID with
  | none => (st, .error .requestNotFound)
  | some wreq =>
    if !CanBeRejected wreq then (st, .error .invalidState)
    else match findUser st wreq.userID with
    | none => (st, .error .userNotFound)
    | some user =>
      let refunded : User := { user with accountBalance := user.accountBalance + wreq.amount }
      let st1 := saveUser st refunded
      let wreq' := { wreq with
        status := TxStatusRejected, adminID := some adminID,
        adminNote := reason, errorMessage := reason,
        processedAt := some now }
      (saveWithdrawalRequest st1 wreq', .ok wreq.amount)

/-! ### Webhook processors — src/backend/handlers/wallet/webhook.go -/

/-- Model of `dfns.TransferEventData` (the fields the processors read); the Go fields
`From`/`To` are rendered `fromAddress`/`toAddress` (keyword). -/
structure TransferEventData where
  id : String
  walletID : String
  txHash : String
  direction : String
  amount : String
  contract : String
  fromAddress : String
  toAddress : String
deriving Repr, DecidableEq

/-- Model of `equalAddresses`: length-equal, byte-wise ASCII case-insensitive
comparison (`+= 32` on `A`–`Z`); addresses are ASCII so bytes are chars. -/
def lowerASCII (c : Char) : Char :=
  if decide ('A' ≤ c ∧ c ≤ 'Z') then Char.ofNat (c.toNat + 32) else c

def equalAddresses (a b : String) : Bool :=
  a.length == b.length
    && (List.zip a.toList b.toList).all (fun p => lowerASCII p.1 == lowerASCII p.2)

/-- Model of `getTokenSymbolFromContract`: match the contract against the chain's
configured USDC then USDT address; `""` means unknown. -/
def getTokenSymbolFromContract (contract : String) (chainID : Int) (st : DBState) : String :=
  match findChainByChainID st chainID with
  | none => ""
  | some chain =>
    if equalAddresses contract chain.usdcAddress then "USDC"
    else if equalAddresses contract chain.usdtAddress then "USDT"
    else ""

/-- Model of `handleInboundTransfer` (deposit crediting).  Drops return the state
untouched; the Go transaction's create-then-credit (with rollback if the user
row is missing) nets to the single committed update modelled here. -/
def handleInboundTransfer (st : DBState) (data : TransferEventData)
    (rawPayload : String) (now : Nat) : DBState :=
  if data.direction != "Inbound" then st
  else match findWalletByDfnsWalletID st data.walletID with
  | none => st
  | some wallet =>
    if txHashExists st data.txHash then st
    else
      let tokenSymbol := getTokenSymbolFromContract data.contract wallet.chainID st
      if tokenSymbol == "" then st
      else
        let decimals := GetTokenDecimals tokenSymbol
        let amountCredits := ConvertToCredits data.amount decimals
        if amountCredits ≤ 0 then st
        else match findUser st wallet.userID with
        | none => st
        | some user =>
          let tx : CryptoTransaction :=
            { id := st.nextID, userID := wallet.userID, walletID := some wallet.id,
              txType := TxTypeDeposit, status := TxStatusCompleted,
              chainID := wallet.chainID, chainName := wallet.chainName,
              tokenSymbol := tokenSymbol, tokenAddress := data.contract,
              amount := data.amount, amountCredits := amountCredits,
              txHash := data.txHash, fromAddress := data.fromAddress,
              toAddress := data.toAddress, dfnsTxID := data.id,
              errorMessage := "", webhookData := rawPayload,
              createdAt := now, processedAt := some now }
          let credited : User :=
            { user with accountBalance := user.accountBalance + amountCredits }
          saveUser { st with cryptoTransactions := st.cryptoTransactions ++ [tx],
                             nextID := st.nextID + 1 } credited

/-- Model of `handleTransferFailed`: mark the transaction FAILED, and for withdrawals
refund `amountCredits` and mark the linked request FAILED.  The three Go
`Save`s are sequential; the net state is modelled in the same order.  Note the
code has no guard on the transaction's previous status. -/
def handleTransferFailed (st : DBState) (data : TransferEventData) (now : Nat) : DBState :=
  match findTxByDfnsID st data.id with
  | none => st
  | some tx =>
    let tx' := { tx with
      status := TxStatusFailed, processedAt := some now,
      errorMessage := "Transfer failed" }
    let st1 := saveTx st tx'
    if tx.txType == TxTypeWithdrawal then
      let st2 := match findUser st1 tx.userID with
        | none => st1
        | some user =>
          saveUser st1 { user with accountBalance := user.accountBalance + tx.amountCredits }
      match findWithdrawalByTransactionID st2 tx.id with
      | none => st2
      | some wreq =>
        saveWithdrawalRequest st2
          { wreq with
            status := TxStatusFailed, processedAt := some now,
            errorMessage := "Transfer failed on blockchain" }
    else st1

/-! ### Concrete fixtures used by the theorems below.
Chain rows follow the migration seed
(src/backend/migration/migrations/20260109_100000_add_wallet_tables.go). -/

def ethereumChainSeed : SupportedChain :=
  { chainID := 1, name := "ethereum",
    usdcAddress := "0xA0b86991c6218b36c1d19D4a2e9Eb0cE3606eB48",
    usdtAddress := "0xdAC17F958D2ee523a2206206994597C13D831ec7" }

/-- The seeded `base` row: no native USDT, so `USDTAddress` is `""`. -/
def baseChainSeed : SupportedChain :=
  { chainID := 8453, name := "base",
    usdcAddress := "0x833589fCD6eDb6E08f4c7C32D4f71b54bdA02913",
    usdtAddress := "" }

def ethAddr : String := "0x1111111111111111111111111111111111111111"

/-- A syntactically valid TRON mainnet address (`T` + 33 alphanumerics). -/
def tronAddr : String := "TJRabPrwbZy45sbavfcjinPJC18kjpRTv8"

def aliceID : Int := 1

/-- A user with balance 1000 and no history. -/
def stFresh : DBState :=
  { users := [{ id := aliceID, username := "alice", accountBalance := 1000 }],
    withdrawalRequests := [], cryptoTransactions := [], wallets := [],
    chains := [ethereumChainSeed], nextID := 1 }

def reqTron : WithdrawalRequestBody :=
  { chainName := "tron", tokenSymbol := "USDT", amount := 100, toAddress := tronAddr }

def reqEth30 : WithdrawalRequestBody :=
  { chainName := "ethereum", tokenSymbol := "USDC", amount := 30, toAddress := ethAddr }

/-- A template withdrawal-request row; fixtures override the varying fields. -/
def wrTemplate : WithdrawalRequest :=
  { id := 0, userID := aliceID, chainID := 1, chainName := "ethereum",
    tokenSymbol := "USDC", amount := 0, toAddress := ethAddr,
    status := TxStatusPending, transactionID := none, errorMessage := "",
    adminID := none, adminNote := "", createdAt := 90000, processedAt := none }

/-- Daily-limit boundary fixture: 49990 credits already counted today
(PENDING, APPROVED, COMPLETED and FAILED rows), one REJECTED row today and
one COMPLETED row from the previous day, both of which the query excludes. -/
def stDaily : DBState :=
  { users := [{ id := aliceID, username := "alice", accountBalance := 60000 }],
    withdrawalRequests :=
      [ { wrTemplate with id := 1, amount := 10000, status := TxStatusCompleted },
        { wrTemplate with id := 2, amount := 10000, status := TxStatusApproved },
        { wrTemplate with id := 3, amount := 10000, status := TxStatusPending },
        { wrTemplate with id := 4, amount := 10000, status := TxStatusFailed },
        { wrTemplate with id := 5, amount := 9990, status := TxStatusPending },
        { wrTemplate with id := 6, amount := 40000, status := TxStatusRejected },
        { wrTemplate with
          id := 7, amount := 30000, status := TxStatusCompleted,
          createdAt := 50000 } ],
    cryptoTransactions := [], wallets := [], chains := [ethereumChainSeed],
    nextID := 8 }

def reqEth10 : WithdrawalRequestBody :=
  { chainName := "ethereum", tokenSymbol := "USDC", amount := 10, toAddress := ethAddr }

def reqEth20 : WithdrawalRequestBody :=
  { chainName := "ethereum", tokenSymbol := "USDC", amount := 20, toAddress := ethAddr }

/-- An APPROVED withdrawal of 30 credits whose transfer is in flight:
balance already debited (70), linked APPROVED transaction `tr-1`. -/
def stApprovedWithdrawal : DBState :=
  { users := [{ id := aliceID, username := "alice", accountBalance := 70 }],
    withdrawalRequests :=
      [ { wrTemplate with
          id := 1, amount := 30, status := TxStatusApproved,
          transactionID := some 2, adminID := some 9, processedAt := some 5 } ],
    cryptoTransactions :=
      [ { id := 2, userID := aliceID, walletID := some 3,
          txType := TxTypeWithdrawal, status := TxStatusApproved,
          chainID := 1, chainName := "ethereum", tokenSymbol := "USDC",
          tokenAddress := ethereumChainSeed.usdcAddress, amount := "30000000",
          amountCredits := 30, txHash := "", fromAddress := "",
          toAddress := ethAddr, dfnsTxID := "tr-1", errorMessage := "",
          webhookData := "", createdAt := 1, processedAt := none } ],
    wallets :=
      [ { id := 3, userID := aliceID, dfnsWalletID := "wa-eth-1", chainID := 1,
          chainName := "ethereum", address := ethAddr, isActive := true } ],
    chains := [ethereumChainSeed], nextID := 4 }

/-- The transfer-failed outcome notification for transfer `tr-1`. -/
def evFailedTr1 : TransferEventData :=
  { id := "tr-1", walletID := "wa-eth-1", txHash := "0xdead",
    direction := "Outbound", amount := "30000000", contract := "",
    fromAddress := "", toAddress := "" }

/-- Deposit fixture on the seeded `base` chain. -/
def stBase : DBState :=
  { users := [{ id := aliceID, username := "alice", accountBalance := 0 }],
    withdrawalRequests := [], cryptoTransactions := [],
    wallets :=
      [ { id := 1, userID := aliceID, dfnsWalletID := "wa-base-1", chainID := 8453,
          chainName := "base", address := ethAddr, isActive := true } ],
    chains := [baseChainSeed], nextID := 2 }

/-- An inbound deposit notification whose `contract` field is empty. -/
def evEmptyContract : TransferEventData :=
  { id := "tf-1", walletID := "wa-base-1", txHash := "0xfeed",
    direction := "Inbound", amount := "5000000", contract := "",
    fromAddress := "0xaaaa", toAddress := "0xbbbb" }

/-- An ordinary USDC deposit notification to the `base` wallet. -/
def evUsdcDeposit : TransferEventData :=
  { id := "tf-2", walletID := "wa-base-1", txHash := "0xbeef",
    direction := "Inbound", amount := "7000000",
    contract := "0x833589fcd6edb6e08f4c7c32d4f71b54bda02913",
    fromAddress := "0xaaaa", toAddress := "0xbbbb" }

/-- A PENDING withdrawal of 30 credits, balance already debited to 70, with
the user's wallet and the chain row configured (ready for admin action). -/
def stPendingWithdrawal : DBState :=
  { users := [{ id := aliceID, username := "alice", accountBalance := 70 }],
    withdrawalRequests :=
      [ { wrTemplate with id := 1, amount := 30, status := TxStatusPending } ],
    cryptoTransactions := [],
    wallets :=
      [ { id := 3, userID := aliceID, dfnsWalletID := "wa-eth-1", chainID := 1,
          chainName := "ethereum", address := ethAddr, isActive := true } ],
    chains := [ethereumChainSeed], nextID := 4 }

/-- Transactions recorded with a given `txHash`. -/
def countTxWithHash (st : DBState) (h : String) : Nat :=
  (st.cryptoTransactions.filter (fun t => t.txHash == h)).length

/-! ## Theorems -/

/-- Claim C7 (confirmed): the conversion utility is exact integer arithmetic —
`ConvertToCredits` truncates (never rounds up) the division by `10^decimals`,
also on inputs beyond the 64-bit range before scaling, and
`CreditsToTokenAmount` multiplies exactly; scaling then unscaling a credit
amount is lossless. -/
theorem conversion_exact_examples :
    ConvertToCredits "1500000" 6 = 1
    ∧ ConvertToCredits "999999" 6 = 0
    ∧ CreditsToTokenAmount 1 6 = "1000000"
    ∧ ConvertToCredits "2000000000000000000000000" 6 = 2000000000000000000
    ∧ CreditsToTokenAmount 9000000000000000000 6 = "9000000000000000000000000"
    ∧ ConvertToCredits (CreditsToTokenAmount 12345 6) 6 = 12345 := by
  refine ⟨by decide, by decide, rfl, by decide, rfl, by decide⟩

/-- Claim C2 (code bug evidence): replaying the same transfer-failed
notification refunds the withdrawal a second time — after one delivery the
balance is 100 (30 credits refunded once), after a replay of the identical
event it is 130. -/
theorem transferFailed_replay_refunds_twice :
    balanceOf (handleTransferFailed stApprovedWithdrawal evFailedTr1 10) aliceID = 100
    ∧ balanceOf (handleTransferFailed
        (handleTransferFailed stApprovedWithdrawal evFailedTr1 10) evFailedTr1 11)
        aliceID = 130 := by
  refine ⟨by decide, by decide⟩

/-- Claim C9 (code bug evidence): `InitiateWithdrawalHandler` validates every
destination address with the EVM regex, so a syntactically valid TRON address
— accepted by the chain-aware `IsValidAddress` for the `tron` chain — is
rejected with a validation error and no state change. -/
theorem initiate_rejects_chain_valid_tron_address :
    IsValidAddress tronAddr "tron" = true
    ∧ IsValidTronAddress tronAddr = true
    ∧ (InitiateWithdrawalHandler stFresh aliceID 0 reqTron).2
        = Except.error InitiateError.invalidAddress
    ∧ (InitiateWithdrawalHandler stFresh aliceID 0 reqTron).1 = stFresh := by
  refine ⟨by decide, by decide, by decide, by decide⟩

/-- Claim C8 (counterexample): for a symbol outside the table the decimals
lookup does not fail the requesting operation — it returns the default 18,
while the spec's fail-closed lookup would return nothing. -/
theorem getTokenDecimals_returns_default :
    GetTokenDecimals "DAI" = 18 ∧ GetTokenDecimalsSpec "DAI" = none := by
  refine ⟨by decide, by decide⟩

/-- Claim C8 (amended): for every token symbol outside the fixed table the
decimals lookup returns the default 18 rather than failing. -/
theorem unknown_token_decimals_default_eighteen (symbol : String)
    (hc : symbol ≠ "USDC") (ht : symbol ≠ "USDT") :
    GetTokenDecimals symbol = 18 := by
  unfold GetTokenDecimals
  simp [hc, ht]

theorem unknown_token_decimals_default_eighteen_witness :
    GetTokenDecimals "DAI" = 18 :=
  unknown_token_decimals_default_eighteen "DAI" (by decide) (by decide)

/-- Claim C10 (confirmed): token classification compares the event contract to
the chain's configured addresses length-equal and case-insensitively with no
non-empty guard, so an inbound event with an empty `contract`, on a wallet of
the seeded `base` chain (whose USDT address is `""`), is classified as USDT
and credited at 6 decimals (5000000 raw units → 5 credits) instead of being
dropped as an unsupported token. -/
theorem empty_contract_classified_as_usdt :
    equalAddresses "" "" = true
    ∧ getTokenSymbolFromContract "" 8453 stBase = "USDT"
    ∧ GetTokenDecimals "USDT" = 6
    ∧ balanceOf (handleInboundTransfer stBase evEmptyContract "" 100) aliceID = 5
    ∧ (handleInboundTransfer stBase evEmptyContract "" 100).cryptoTransactions.map
        CryptoTransaction.tokenSymbol = ["USDT"] := by
  refine ⟨by decide, by decide, by decide, by decide, by decide⟩

/-- Claim C6 (confirmed): daily usage is the sum over the user's requests
created since the start of the current UTC day with status other than
REJECTED; a request is allowed iff `dailyUsage + amount ≤ 50000` (equality
allowed).  On the boundary fixture — 49990 counted today, with a REJECTED row
and a previous-day row that the query ignores — a 20-credit Initiate is
rejected with no state change and a 10-credit Initiate succeeds. -/
theorem daily_limit_boundary :
    (∀ (st : DBState) (uid : Int) (now : Nat) (amount : Int),
      checkDailyWithdrawalLimit st uid now amount = true
        ↔ dailyWithdrawalTotal st uid (startOfDayUTC now) + amount ≤ DailyWithdrawalLimit)
    ∧ dailyWithdrawalTotal stDaily aliceID (startOfDayUTC 100000) = 49990
    ∧ checkDailyWithdrawalLimit stDaily aliceID 100000 20 = false
    ∧ checkDailyWithdrawalLimit stDaily aliceID 100000 10 = true
    ∧ (InitiateWithdrawalHandler stDaily aliceID 100000 reqEth20).2
        = Except.error InitiateError.dailyLimitExceeded
    ∧ (InitiateWithdrawalHandler stDaily aliceID 100000 reqEth20).1 = stDaily
    ∧ (InitiateWithdrawalHandler stDaily aliceID 100000 reqEth10).2.isOk = true := by
  refine ⟨?_, by decide, by decide, by decide, by decide, by decide, by decide⟩
  intro st uid now amount
  unfold checkDailyWithdrawalLimit
  exact decide_eq_true_iff

/-! ### Helper lemmas about the GORM primitives -/

theorem find?_keyUpdate {α β : Type} [BEq β] [LawfulBEq β] (f : α → β)
    (l : List α) (k : β) (old u' : α)
    (hu : l.find? (fun x => f x == k) = some old) (hid : f u' = f old) :
    (l.map (fun x => if f x == f u' then u' else x)).find? (fun x => f x == k)
      = some u' := by
  induction l with
  | nil => simp at hu
  | cons a t ih =>
    by_cases ha : (f a == k) = true
    · rw [List.find?_cons_of_pos (p := fun (x : α) => f x == k) t ha] at hu
      have hau : a = old := Option.some.inj hu
      subst hau
      have hcond : (f a == f u') = true := by
        rw [hid]
        exact beq_self_eq_true (f a)
      have hpred : (f u' == k) = true := by
        rw [hid]; exact ha
      simp only [List.map_cons, hcond, if_true]
      exact List.find?_cons_of_pos (p := fun (x : α) => f x == k) _ hpred
    · rw [List.find?_cons_of_neg (p := fun (x : α) => f x == k) t ha] at hu
      have hold := List.find?_some hu
      have hne : f a ≠ f u' := by
        intro hEq
        rw [hEq, hid] at ha
        exact ha hold
      have hcond : (f a == f u') = false := beq_eq_false_iff_ne.mpr hne
      simp only [List.map_cons, hcond, Bool.false_eq_true, if_false]
      rw [List.find?_cons_of_neg (p := fun (x : α) => f x == k) _ ha]
      exact ih hu

theorem findUser_saveUser (st : DBState) (uid : Int) (user u' : User)
    (hu : findUser st uid = some user) (hid : u'.id = user.id) :
    findUser (saveUser st u') uid = some u' := by
  unfold findUser saveUser at *
  exact find?_keyUpdate (fun (x : User) => x.id) st.users uid user u' hu hid

theorem findWithdrawal_saveWithdrawal (st : DBState) (wid : Nat)
    (old r : WithdrawalRequest)
    (hw : findWithdrawalRequest st wid = some old) (hid : r.id = old.id) :
    findWithdrawalRequest (saveWithdrawalRequest st r) wid = some r := by
  unfold findWithdrawalRequest saveWithdrawalRequest at *
  exact find?_keyUpdate (fun (x : WithdrawalRequest) => x.id)
    st.withdrawalRequests wid old r hw hid

theorem balanceOf_congr_users (st st' : DBState) (h : st'.users = st.users) (uid : Int) :
    balanceOf st' uid = balanceOf st uid := by
  unfold balanceOf findUser
  rw [h]

/-- Claim C1 (confirmed): when `Initiate` succeeds, the new balance is the old
balance minus the requested amount and the request list is extended by exactly
one new PENDING request of that amount; when any check fails, the state is
returned untouched. -/
theorem initiate_debits_and_creates_pending (st : DBState) (uid : Int) (now : Nat)
    (req : WithdrawalRequestBody) :
    (∀ wr, (InitiateWithdrawalHandler st uid now req).2 = Except.ok wr →
      balanceOf (InitiateWithdrawalHandler st uid now req).1 uid
          = balanceOf st uid - req.amount
      ∧ wr.status = TxStatusPending
      ∧ wr.amount = req.amount
      ∧ (InitiateWithdrawalHandler st uid now req).1.withdrawalRequests
          = st.withdrawalRequests ++ [wr])
    ∧ (∀ e, (InitiateWithdrawalHandler st uid now req).2 = Except.error e →
        (InitiateWithdrawalHandler st uid now req).1 = st) := by
  suffices h : ∀ (st' : DBState) (res : Except InitiateError WithdrawalRequest),
      InitiateWithdrawalHandler st uid now req = (st', res) →
      (∀ wr, res = Except.ok wr →
        balanceOf st' uid = balanceOf st uid - req.amount
        ∧ wr.status = TxStatusPending
        ∧ wr.amount = req.amount
        ∧ st'.withdrawalRequests = st.withdrawalRequests ++ [wr])
      ∧ (∀ e, res = Except.error e → st' = st) by
    exact h _ _ rfl
  intro st' res hres
  unfold InitiateWithdrawalHandler at hres
  repeat' split at hres
  all_goals injection hres with hA hB
  all_goals subst hA
  all_goals subst hB
  any_goals exact ⟨fun wr h => Except.noConfusion h, fun e h => rfl⟩
  rename_i x1 user hu h1 h2 h3 h4 h5 h6 h7 x2 ci hci
  refine ⟨fun wr h => ?_, fun e h => Except.noConfusion h⟩
  simp only [Except.ok.injEq] at h
  subst h
  have hfind := findUser_saveUser st uid user
    ⟨user.id, user.username, user.accountBalance - req.amount⟩ hu rfl
  have hbal : balanceOf st uid = user.accountBalance := by
    unfold balanceOf
    rw [hu]
    rfl
  have hb2 : balanceOf
      (saveUser st ⟨user.id, user.username, user.accountBalance - req.amount⟩) uid
      = user.accountBalance - req.amount := by
    unfold balanceOf
    rw [hfind]
    rfl
  refine ⟨?_, rfl, rfl, rfl⟩
  refine (balanceOf_congr_users _
    (saveUser st ⟨user.id, user.username, user.accountBalance - req.amount⟩)
    rfl uid).symm.trans ?_
  rw [hb2, hbal]

theorem initiate_debits_and_creates_pending_witness :
    balanceOf (InitiateWithdrawalHandler stFresh aliceID 0 reqEth30).1 aliceID
        = balanceOf stFresh aliceID - reqEth30.amount
    ∧ (InitiateWithdrawalHandler stFresh aliceID 0 reqEth30).1.withdrawalRequests
        = stFresh.withdrawalRequests
          ++ [{ id := 1, userID := aliceID, chainID := 1, chainName := "ethereum",
                tokenSymbol := "USDC", amount := 30, toAddress := ethAddr,
                status := TxStatusPending, transactionID := none, errorMessage := "",
                adminID := none, adminNote := "", createdAt := 0, processedAt := none }] := by
  have h := (initiate_debits_and_creates_pending stFresh aliceID 0 reqEth30).1
    { id := 1, userID := aliceID, chainID := 1, chainName := "ethereum",
      tokenSymbol := "USDC", amount := 30, toAddress := ethAddr,
      status := TxStatusPending, transactionID := none, errorMessage := "",
      adminID := none, adminNote := "", createdAt := 0, processedAt := none }
    (by decide)
  exact ⟨h.1, h.2.2.2⟩

/-- Claim C3 (confirmed): an Approve call never changes any user's balance,
and when the custody transfer-initiation fails the handler returns the state
entirely untouched with an error; on a PENDING request whose wallet, chain and
token contract resolve, that error is precisely `transferFailed` (surfaced to
the admin as a retryable internal failure, the request still PENDING). -/
theorem approve_preserves_balance (st : DBState) (adminID : Int) (wid : Nat)
    (note : String) (now : Nat) (transferOutcome : Option String) :
    (∀ uid, balanceOf (ApproveWithdrawalHandler st adminID wid note now transferOutcome).1 uid
        = balanceOf st uid)
    ∧ (transferOutcome = none →
        (ApproveWithdrawalHandler st adminID wid note now transferOutcome).1 = st
        ∧ ∃ e, (ApproveWithdrawalHandler st adminID wid note now transferOutcome).2
            = Except.error e)
    ∧ (∀ wr wallet chain contract,
        findWithdrawalRequest st wid = some wr → wr.status = TxStatusPending →
        findActiveWallet st wr.userID wr.chainID = some wallet →
        findChainByChainID st wr.chainID = some chain →
        tokenContractFor wr.tokenSymbol chain = some contract →
        contract ≠ "" → transferOutcome = none →
        ApproveWithdrawalHandler st adminID wid note now transferOutcome
          = (st, Except.error ApproveError.transferFailed)) := by
  refine ⟨?_, ?_, ?_⟩
  · have husers : (ApproveWithdrawalHandler st adminID wid note now transferOutcome).1.users
        = st.users := by
      suffices h : ∀ (st' : DBState) (res : Except ApproveError (Nat × String)),
          ApproveWithdrawalHandler st adminID wid note now transferOutcome = (st', res) →
          st'.users = st.users by
        exact h _ _ rfl
      intro st' res hres
      unfold ApproveWithdrawalHandler at hres
      repeat' split at hres
      all_goals injection hres with hA hB
      all_goals subst hA
      all_goals rfl
    intro uid
    exact balanceOf_congr_users st _ husers uid
  · intro htr
    subst htr
    suffices h : ∀ (st' : DBState) (res : Except ApproveError (Nat × String)),
        ApproveWithdrawalHandler st adminID wid note now none = (st', res) →
        st' = st ∧ ∃ e, res = Except.error e by
      exact h _ _ rfl
    intro st' res hres
    unfold ApproveWithdrawalHandler at hres
    repeat' split at hres
    all_goals injection hres with hA hB
    all_goals subst hA
    all_goals subst hB
    all_goals first
      | exact ⟨rfl, _, rfl⟩
      | simp_all
  · intro wr wallet chain contract hwr hstatus hwallet hchain hcontract hcne htr
    subst htr
    have h1 : CanBeApproved wr = true := by
      unfold CanBeApproved
      rw [hstatus]
      exact beq_self_eq_true _
    have h2 : (contract == "") = false := beq_eq_false_iff_ne.mpr hcne
    simp only [ApproveWithdrawalHandler, hwr, h1, Bool.not_true, Bool.false_eq_true,
      if_false, hwallet, hchain, hcontract, h2]

theorem approve_preserves_balance_witness :
    ApproveWithdrawalHandler stPendingWithdrawal 9 1 "sent" 50 none
      = (stPendingWithdrawal, Except.error ApproveError.transferFailed)
    ∧ balanceOf (ApproveWithdrawalHandler stPendingWithdrawal 9 1 "sent" 50 none).1 aliceID
      = 70 := by
  have h := approve_preserves_balance stPendingWithdrawal 9 1 "sent" 50 none
  refine ⟨h.2.2 { wrTemplate with id := 1, amount := 30, status := TxStatusPending }
    { id := 3, userID := aliceID, dfnsWalletID := "wa-eth-1", chainID := 1,
      chainName := "ethereum", address := ethAddr, isActive := true }
    ethereumChainSeed "0xA0b86991c6218b36c1d19D4a2e9Eb0cE3606eB48"
    (by decide) (by decide) (by decide) (by decide) (by decide) (by decide) rfl, ?_⟩
  exact (h.1 aliceID).trans (by decide)

/-- Claim C4 (confirmed): rejecting a PENDING request with a non-empty reason
refunds exactly its amount and records REJECTED with the reason; a Reject on a
non-PENDING request (in particular a second Reject) fails with an
invalid-state error and leaves the state untouched, as does an Approve on a
non-PENDING request; an empty reason is rejected before anything is read. -/
theorem reject_refunds_once (st : DBState) (adminID : Int) (wid : Nat)
    (reason : String) (now : Nat) :
    (∀ wr u, findWithdrawalRequest st wid = some wr → wr.status = TxStatusPending →
      reason ≠ "" → findUser st wr.userID = some u →
      (RejectWithdrawalHandler st adminID wid reason now).2 = Except.ok wr.amount
      ∧ balanceOf (RejectWithdrawalHandler st adminID wid reason now).1 wr.userID
          = balanceOf st wr.userID + wr.amount
      ∧ findWithdrawalRequest (RejectWithdrawalHandler st adminID wid reason now).1 wid
          = some { wr with
              status := TxStatusRejected, adminID := some adminID,
              adminNote := reason, errorMessage := reason, processedAt := some now })
    ∧ (∀ wr, findWithdrawalRequest st wid = some wr → wr.status ≠ TxStatusPending →
        reason ≠ "" →
        RejectWithdrawalHandler st adminID wid reason now
          = (st, Except.error RejectError.invalidState))
    ∧ (reason = "" →
        RejectWithdrawalHandler st adminID wid reason now
          = (st, Except.error RejectError.reasonRequired))
    ∧ (∀ wr, findWithdrawalRequest st wid = some wr → wr.status ≠ TxStatusPending →
        ∀ note tr, ApproveWithdrawalHandler st adminID wid note now tr
          = (st, Except.error ApproveError.invalidState)) := by
  refine ⟨?_, ?_, ?_, ?_⟩
  · intro wr u hwr hstatus hreason hu
    have hrb : (reason == "") = false := beq_eq_false_iff_ne.mpr hreason
    have hcb : CanBeRejected wr = true := by
      unfold CanBeRejected
      rw [hstatus]
      exact beq_self_eq_true _
    have hR : RejectWithdrawalHandler st adminID wid reason now
        = (saveWithdrawalRequest
            (saveUser st ⟨u.id, u.username, u.accountBalance + wr.amount⟩)
            { wr with
              status := TxStatusRejected, adminID := some adminID,
              adminNote := reason, errorMessage := reason, processedAt := some now },
           Except.ok wr.amount) := by
      simp only [RejectWithdrawalHandler, hrb, Bool.false_eq_true, if_false, hwr,
        hcb, Bool.not_true, hu]
    rw [hR]
    refine ⟨rfl, ?_, ?_⟩
    · have hfind := findUser_saveUser st wr.userID u
        ⟨u.id, u.username, u.accountBalance + wr.amount⟩ hu rfl
      have hb1 : balanceOf st wr.userID = u.accountBalance := by
        unfold balanceOf
        rw [hu]
        rfl
      have hb2 : balanceOf
          (saveUser st ⟨u.id, u.username, u.accountBalance + wr.amount⟩) wr.userID
          = u.accountBalance + wr.amount := by
        unfold balanceOf
        rw [hfind]
        rfl
      refine (balanceOf_congr_users
        (saveUser st ⟨u.id, u.username, u.accountBalance + wr.amount⟩) _
        rfl wr.userID).trans ?_
      rw [hb2, hb1]
    · refine findWithdrawal_saveWithdrawal _ wid wr _ ?_ rfl
      exact hwr
  · intro wr hwr hstatus hreason
    have hrb : (reason == "") = false := beq_eq_false_iff_ne.mpr hreason
    have hcb : CanBeRejected wr = false := by
      unfold CanBeRejected
      exact beq_eq_false_iff_ne.mpr hstatus
    simp only [RejectWithdrawalHandler, hrb, Bool.false_eq_true, if_false, hwr,
      hcb, Bool.not_false, if_true]
  · intro hreason
    subst hreason
    simp only [RejectWithdrawalHandler, beq_self_eq_true, if_true]
  · intro wr hwr hstatus note tr
    have hcb : CanBeApproved wr = false := by
      unfold CanBeApproved
      exact beq_eq_false_iff_ne.mpr hstatus
    simp only [ApproveWithdrawalHandler, hwr, hcb, Bool.not_false, if_true]

theorem reject_refunds_once_witness :
    (RejectWithdrawalHandler stPendingWithdrawal 9 1 "bad address" 50).2 = Except.ok 30
    ∧ balanceOf (RejectWithdrawalHandler stPendingWithdrawal 9 1 "bad address" 50).1
        aliceID = 100
    ∧ RejectWithdrawalHandler
        (RejectWithdrawalHandler stPendingWithdrawal 9 1 "bad address" 50).1 9 1 "again" 60
      = ((RejectWithdrawalHandler stPendingWithdrawal 9 1 "bad address" 50).1,
         Except.error RejectError.invalidState) := by
  have h1 := (reject_refunds_once stPendingWithdrawal 9 1 "bad address" 50).1
    { wrTemplate with id := 1, amount := 30, status := TxStatusPending }
    ⟨aliceID, "alice", 70⟩ (by decide) (by decide) (by decide) (by decide)
  have h2 := (reject_refunds_once
    (RejectWithdrawalHandler stPendingWithdrawal 9 1 "bad address" 50).1 9 1 "again" 60).2.1
    { wrTemplate with
      id := 1, amount := 30, status := TxStatusRejected, adminID := some 9,
      adminNote := "bad address", errorMessage := "bad address", processedAt := some 50 }
    (by decide) (by decide) (by decide)
  exact ⟨h1.1, (h1.2.1).trans (by decide), h2⟩

/-- Claim C5 (confirmed): deposit processing is idempotent on `txHash` — a
second delivery of the same inbound event is a no-op on the state, and when no
transaction with the event's hash existed and the first delivery credited,
exactly one transaction with that hash exists after both deliveries. -/
theorem deposit_idempotent_on_txhash (st : DBState) (ev : TransferEventData)
    (r1 r2 : String) (n1 n2 : Nat) :
    handleInboundTransfer (handleInboundTransfer st ev r1 n1) ev r2 n2
      = handleInboundTransfer st ev r1 n1
    ∧ (txHashExists st ev.txHash = false →
        handleInboundTransfer st ev r1 n1 ≠ st →
        countTxWithHash (handleInboundTransfer st ev r1 n1) ev.txHash = 1) := by
  suffices h : ∀ st1, handleInboundTransfer st ev r1 n1 = st1 →
      handleInboundTransfer st1 ev r2 n2 = st1
      ∧ (txHashExists st ev.txHash = false → st1 ≠ st →
          countTxWithHash st1 ev.txHash = 1) by
    exact h _ rfl
  intro st1 h1
  unfold handleInboundTransfer at h1
  simp only [] at h1
  repeat' split at h1
  all_goals subst h1
  -- drop branches: the second delivery retraces the same guards over the
  -- unchanged state, and the no-credit clause is vacuous
  any_goals
    refine ⟨?_, fun hh hne => absurd rfl hne⟩
    unfold handleInboundTransfer
    simp_all
  -- success branch
  rename_i hdir x1 wallet hwal hhash htok hcred x2 user huser
  constructor
  · unfold handleInboundTransfer
    simp_all [saveUser, txHashExists, findWalletByDfnsWalletID, List.any_append]
  · intro hh hne
    unfold countTxWithHash
    simp only [saveUser]
    rw [List.filter_append]
    have hempty : st.cryptoTransactions.filter (fun t => t.txHash == ev.txHash) = [] := by
      unfold txHashExists at hh
      rw [List.filter_eq_nil_iff]
      intro t ht
      have := List.any_eq_false.mp (by exact hh) t ht
      simpa using this
    rw [hempty]
    simp

theorem deposit_idempotent_on_txhash_witness :
    countTxWithHash (handleInboundTransfer stBase evUsdcDeposit "" 100)
      evUsdcDeposit.txHash = 1 :=
  (deposit_idempotent_on_txhash stBase evUsdcDeposit "" "" 100 100).2
    (by decide) (by decide)

end PredictionMarket
